import Mathlib

/-!
Verification of the single-leader key-value node (src/kv):
shallow embedding of `Node::fd_update_peer`, `Node::leader_is_dead`,
`Store::put` / `Store::get` / `Store::del`, and the `/put`, `/get` and
`/internal/replicate` request handlers from `node.cpp` / `store.cpp`.
Timestamps (`now_ms()`) are modelled as `Int`; the maps
`last_ok_ms_` / `fd_state_` are modelled as total functions with the
defaults the C++ lookups produce (`0` and `"Alive"` respectively), which
matches the code's read pattern exactly.
-/

namespace KV

/-- Health classification strings used in `fd_state_`. -/
inductive FDState
  | Alive
  | Suspected
  | Dead
deriving DecidableEq, Repr

/-- Structured log events emitted by `Node::log_event`; each constructor
carries the type-specific fields the C++ call site attaches. -/
inductive Event
  | fd_state_change (peer : String) (prv : FDState) (nxt : FDState)
  | put_badreq (rid : String)
  | put_reject_not_leader (rid : String) (key : String)
  | put_okev (rid : String) (key : String) (value_len : Nat)
  | get_badreq (rid : String)
  | get_notfound (rid : String) (key : String)
  | get_okev (rid : String) (key : String) (value_len : Nat)
  | replicate_apply (rid : String) (key : String) (op : String)
  | replicate_result (rid : String) (key : String) (peer : String) (ok : Bool)
deriving DecidableEq, Repr

/-- Pointwise update of a total map keyed by strings (the effect of
`m[k] = v` on a C++ map read through `find`-with-default). -/
def fupd {α : Type} (f : String → α) (k : String) (v : α) : String → α :=
  fun q => if q = k then v else f q

/-- The failure detector's shared state: `last_ok_ms_` (0 = never
succeeded) and `fd_state_` (absent entry reads as `Alive`, which the
total-function default bakes in). -/
structure FD where
  last_ok : String → Int
  state : String → FDState

/-- Detector state at node startup: both maps empty. -/
def initFD : FD := ⟨fun _ => 0, fun _ => FDState.Alive⟩

/-- The `last_ok_ms_` map after the first statement of
`Node::fd_update_peer`: `if (ok) last_ok_ms_[peer_id] = t;`. -/
def fd_last1 (fd : FD) (peer : String) (ok : Bool) (t : Int) : String → Int :=
  if ok then fupd fd.last_ok peer t else fd.last_ok

/-- The `next` state computed by `Node::fd_update_peer` from the success
flag, the (post-stamp) `last_ok` value read for the peer, and the outcome
time: `Alive` on success; on failure `Suspected` when `last_ok == 0`,
else `Dead` iff `t - last_ok > heartbeat_timeout_ms`. -/
def fd_next (timeout : Int) (ok : Bool) (last t : Int) : FDState :=
  if ok then FDState.Alive
  else if last = 0 then FDState.Suspected
  else if t - last > timeout then FDState.Dead
  else FDState.Suspected

/-- Embedding of `Node::fd_update_peer(peer_id, ok, t)` (node.cpp lines
38-67): on success stamp `last_ok`, compute the next state, store it
(both branches write `fd_state_[peer_id]`), and return the
`fd_state_change` event iff the next state differs from the previous
state. -/
def fd_update_peer (timeout : Int) (fd : FD) (peer : String) (ok : Bool) (t : Int) :
    FD × Option Event :=
  if fd_next timeout ok (fd_last1 fd peer ok t peer) t = fd.state peer then
    (⟨fd_last1 fd peer ok t, fupd fd.state peer (fd.state peer)⟩, none)
  else
    (⟨fd_last1 fd peer ok t, fupd fd.state peer (fd_next timeout ok (fd_last1 fd peer ok t peer) t)⟩,
      some (Event.fd_state_change peer (fd.state peer)
        (fd_next timeout ok (fd_last1 fd peer ok t peer) t)))

/-- Embedding of `Node::leader_is_dead(now)` (node.cpp lines 69-75): a
pure read of the detector state for the synthetic `"leader"` peer — the
C++ body only takes the lock, reads `last_ok_ms_`, and returns; it writes
nothing and logs nothing. -/
def leader_is_dead (timeout : Int) (fd : FD) (now : Int) : Bool :=
  let last := fd.last_ok "leader"
  if last = 0 then false
  else decide (now - last > timeout)

@[simp] theorem fupd_same {α : Type} (f : String → α) (k : String) (v : α) :
    fupd f k v k = v := by
  simp [fupd]

@[simp] theorem fupd_other {α : Type} (f : String → α) (k q : String) (v : α)
    (h : q ≠ k) : fupd f k v q = f q := by
  simp [fupd, h]

theorem fd_last1_at (fd : FD) (p : String) (ok : Bool) (t : Int) :
    fd_last1 fd p ok t p = if ok then t else fd.last_ok p := by
  cases ok <;> simp [fd_last1]

@[simp] theorem fd_update_peer_last_ok (timeout : Int) (fd : FD) (p : String) (ok : Bool)
    (t : Int) : (fd_update_peer timeout fd p ok t).1.last_ok = fd_last1 fd p ok t := by
  unfold fd_update_peer
  split <;> rfl

@[simp] theorem fd_update_peer_state_at (timeout : Int) (fd : FD) (p : String) (ok : Bool)
    (t : Int) : (fd_update_peer timeout fd p ok t).1.state p =
      fd_next timeout ok (fd_last1 fd p ok t p) t := by
  unfold fd_update_peer
  split
  · next h => simp [h]
  · next h => simp

theorem fd_update_peer_state_other (timeout : Int) (fd : FD) (p q : String) (ok : Bool)
    (t : Int) (hq : q ≠ p) :
    (fd_update_peer timeout fd p ok t).1.state q = fd.state q := by
  unfold fd_update_peer
  split <;> simp [hq]

theorem fd_update_peer_snd (timeout : Int) (fd : FD) (p : String) (ok : Bool) (t : Int) :
    (fd_update_peer timeout fd p ok t).2 =
      if fd_next timeout ok (fd_last1 fd p ok t p) t = fd.state p then none
      else some (Event.fd_state_change p (fd.state p)
        (fd_next timeout ok (fd_last1 fd p ok t p) t)) := by
  unfold fd_update_peer
  split <;> simp_all

/-- Claim C1: for a peer whose last recorded success is at time `T`
(`T > 0`: `now_ms` timestamps are positive, `0` is the never-succeeded
sentinel), a failed outcome at time `T + d` stores `Dead` iff
`d > heartbeat_timeout`, stores `Suspected` otherwise, and leaves
`last_success_time` untouched. -/
theorem fd_fail_dead_iff_timeout (timeout T d : Int) (fd : FD) (p : String)
    (hT : 0 < T) (hlast : fd.last_ok p = T) :
    ((fd_update_peer timeout fd p false (T + d)).1.state p = FDState.Dead ↔ d > timeout)
    ∧ (¬ d > timeout →
        (fd_update_peer timeout fd p false (T + d)).1.state p = FDState.Suspected)
    ∧ (fd_update_peer timeout fd p false (T + d)).1.last_ok p = T := by
  have hT0 : T ≠ 0 := ne_of_gt hT
  have hdiff : T + d - T = d := by ring
  have hs : (fd_update_peer timeout fd p false (T + d)).1.state p =
      if d > timeout then FDState.Dead else FDState.Suspected := by
    rw [fd_update_peer_state_at, fd_last1_at]
    simp [fd_next, hlast, hT0, hdiff]
  have hl : (fd_update_peer timeout fd p false (T + d)).1.last_ok p = T := by
    rw [fd_update_peer_last_ok, fd_last1_at]
    simp [hlast]
  refine ⟨?_, ?_, hl⟩
  · rw [hs]
    by_cases hgt : d > timeout <;> simp [hgt]
  · intro h
    rw [hs, if_neg h]

/-- Concrete detector state used by witnesses: one peer `"p1"` with a
success recorded at time 1000. -/
def exFD : FD := ⟨fun q => if q = "p1" then 1000 else 0, fun _ => FDState.Alive⟩

/-- Witness for C1 at `timeout = 500`, success at `T = 1000`, failure
`d = 501` later. -/
theorem fd_fail_dead_iff_timeout_witness :
    ((fd_update_peer 500 exFD "p1" false (1000 + 501)).1.state "p1" = FDState.Dead
      ↔ (501 : Int) > 500)
    ∧ (fd_update_peer 500 exFD "p1" false (1000 + 501)).1.last_ok "p1" = 1000 :=
  ⟨(fd_fail_dead_iff_timeout 500 1000 501 exFD "p1" (by decide) (by simp [exFD])).1,
    (fd_fail_dead_iff_timeout 500 1000 501 exFD "p1" (by decide) (by simp [exFD])).2.2⟩

/-- Folding a sequence of failed outcomes (`ok = false`) at the given
times into the detector, for one peer. -/
def fdRunFails (timeout : Int) (fd : FD) (p : String) (ts : List Int) : FD :=
  ts.foldl (fun acc t => (fd_update_peer timeout acc p false t).1) fd

theorem fd_fail_never_ok_step (timeout : Int) (fd : FD) (p : String) (t : Int)
    (h0 : fd.last_ok p = 0) :
    (fd_update_peer timeout fd p false t).1.last_ok p = 0
    ∧ (fd_update_peer timeout fd p false t).1.state p = FDState.Suspected := by
  constructor
  · rw [fd_update_peer_last_ok, fd_last1_at]
    simp [h0]
  · rw [fd_update_peer_state_at, fd_last1_at]
    simp [fd_next, h0]

theorem fdRunFails_spec (timeout : Int) (p : String) :
    ∀ (ts : List Int) (fd : FD), fd.last_ok p = 0 → fd.state p = FDState.Suspected →
      (fdRunFails timeout fd p ts).last_ok p = 0
      ∧ (fdRunFails timeout fd p ts).state p = FDState.Suspected := by
  intro ts
  induction ts with
  | nil => exact fun fd h0 hs => ⟨h0, hs⟩
  | cons t rest ih =>
    intro fd h0 hs
    have step := fd_fail_never_ok_step timeout fd p t h0
    simpa [fdRunFails] using ih ((fd_update_peer timeout fd p false t).1) step.1 step.2

/-- Claim C2: a peer that has never had a success recorded
(`last_ok_ms_` reads 0) ends `Suspected` — never `Dead` — after any
nonempty sequence of failed outcomes at arbitrary times, and still has no
recorded success afterwards. -/
theorem fd_never_success_stays_suspected (timeout : Int) (fd : FD) (p : String)
    (ts : List Int) (h0 : fd.last_ok p = 0) (hne : ts ≠ []) :
    (fdRunFails timeout fd p ts).state p = FDState.Suspected
    ∧ (fdRunFails timeout fd p ts).state p ≠ FDState.Dead
    ∧ (fdRunFails timeout fd p ts).last_ok p = 0 := by
  cases ts with
  | nil => exact absurd rfl hne
  | cons t rest =>
    have step := fd_fail_never_ok_step timeout fd p t h0
    have h := fdRunFails_spec timeout p rest ((fd_update_peer timeout fd p false t).1)
      step.1 step.2
    have hfold : fdRunFails timeout fd p (t :: rest) =
        fdRunFails timeout ((fd_update_peer timeout fd p false t).1) p rest := by
      simp [fdRunFails]
    rw [hfold]
    exact ⟨h.2, by simp [h.2], h.1⟩

/-- Witness for C2: three failures (the last one far beyond the timeout)
for a fresh peer still yield `Suspected`. -/
theorem fd_never_success_stays_suspected_witness :
    (fdRunFails 500 initFD "p2" [5, 10, 10000]).state "p2" = FDState.Suspected
    ∧ (fdRunFails 500 initFD "p2" [5, 10, 10000]).state "p2" ≠ FDState.Dead
    ∧ (fdRunFails 500 initFD "p2" [5, 10, 10000]).last_ok "p2" = 0 :=
  fd_never_success_stays_suspected 500 initFD "p2" [5, 10, 10000] rfl (by simp)

/-- Claim C3: `fd_update_peer` returns an event iff the stored state
differs from the immediately preceding state (which, over the
total-function model, defaults to `Alive` for a peer with no prior
record, as `initFD` shows); any event carries the peer id, the previous
state and the new state; and repeating the identical outcome immediately
afterwards emits no further event. -/
theorem fd_event_iff_state_change (timeout : Int) (fd : FD) (p : String) (ok : Bool)
    (t : Int) :
    ((fd_update_peer timeout fd p ok t).2 ≠ none ↔
      (fd_update_peer timeout fd p ok t).1.state p ≠ fd.state p)
    ∧ ((fd_update_peer timeout fd p ok t).2 = none ∨
        (fd_update_peer timeout fd p ok t).2 = some (Event.fd_state_change p (fd.state p)
          ((fd_update_peer timeout fd p ok t).1.state p)))
    ∧ (fd_update_peer timeout (fd_update_peer timeout fd p ok t).1 p ok t).2 = none
    ∧ initFD.state p = FDState.Alive := by
  have hL : fd_last1 (fd_update_peer timeout fd p ok t).1 p ok t p = fd_last1 fd p ok t p := by
    rw [fd_last1_at, fd_last1_at, fd_update_peer_last_ok, fd_last1_at]
    cases ok <;> simp
  refine ⟨?_, ?_, ?_, rfl⟩
  · rw [fd_update_peer_snd, fd_update_peer_state_at]
    by_cases h : fd_next timeout ok (fd_last1 fd p ok t p) t = fd.state p <;> simp [h]
  · rw [fd_update_peer_snd, fd_update_peer_state_at]
    by_cases h : fd_next timeout ok (fd_last1 fd p ok t p) t = fd.state p <;> simp [h]
  · rw [fd_update_peer_snd, hL, fd_update_peer_state_at]
    simp

/-- The per-step `(previous state, stored state)` pairs for one peer over
a sequence of `fd_update_peer` calls `(ok, t)`. -/
def fdTrace (timeout : Int) (fd : FD) (p : String) : List (Bool × Int) → List (FDState × FDState)
  | [] => []
  | c :: rest =>
    (fd.state p, (fd_update_peer timeout fd p c.1 c.2).1.state p) ::
      fdTrace timeout (fd_update_peer timeout fd p c.1 c.2).1 p rest

/-- Every call in the list happens at most `timeout` after the previous
one, the first being measured against `tprev`. -/
def gapsFrom (timeout : Int) : Int → List (Bool × Int) → Bool
  | _, [] => true
  | tprev, c :: rest => decide (c.2 - tprev ≤ timeout) && gapsFrom timeout c.2 rest

/-- Every call in the list happens at most `timeout` after the previous
one; the first call is unconstrained. -/
def gapsOK (timeout : Int) : List (Bool × Int) → Bool
  | [] => true
  | c :: rest => gapsFrom timeout c.2 rest

/-- Counterexample to C4 as stated: with `heartbeat_timeout = 500`, a
success at time 1000 followed by a single failure at time 2000 (gap
1000 > 500) drives the peer directly from `Alive` to `Dead` with no
intervening `Suspected` record — the code compares only
`t - last_ok > timeout`, never the previous state. -/
theorem fd_alive_to_dead_counterexample :
    (FDState.Alive, FDState.Dead) ∈ fdTrace 500 initFD "f2" [(true, 1000), (false, 2000)] := by
  decide

theorem fdTrace_no_alive_dead (timeout : Int) (p : String) :
    ∀ (calls : List (Bool × Int)) (fd : FD) (tprev : Int),
      (fd.state p = FDState.Alive → fd.last_ok p = 0 ∨ fd.last_ok p = tprev) →
      gapsFrom timeout tprev calls = true →
      (FDState.Alive, FDState.Dead) ∉ fdTrace timeout fd p calls := by
  intro calls
  induction calls with
  | nil =>
    intro fd tprev _ _
    simp [fdTrace]
  | cons c rest ih =>
    obtain ⟨ok, tc⟩ := c
    intro fd tprev hinv hgaps
    simp only [gapsFrom, Bool.and_eq_true, decide_eq_true_eq] at hgaps
    obtain ⟨hgap, hrest⟩ := hgaps
    simp only [fdTrace, List.mem_cons]
    rintro (heq | hmem)
    · injection heq with hprev hdead
      replace hprev := hprev.symm
      replace hdead := hdead.symm
      rw [fd_update_peer_state_at, fd_last1_at] at hdead
      cases ok with
      | true =>
        simp [fd_next] at hdead
      | false =>
        by_cases h0 : fd.last_ok p = 0
        · simp [fd_next, h0] at hdead
        · rcases hinv hprev with h | h
          · exact h0 h
          · have hngt : ¬ tc - tprev > timeout := by omega
            simp [fd_next, h0, h, hngt] at hdead
    · refine ih ((fd_update_peer timeout fd p ok tc).1) tc ?_ hrest hmem
      intro ha
      rw [fd_update_peer_state_at, fd_last1_at] at ha
      rw [fd_update_peer_last_ok, fd_last1_at]
      cases ok with
      | true =>
        simp
      | false =>
        exfalso
        by_cases h0 : fd.last_ok p = 0
        · simp [fd_next, h0] at ha
        · by_cases hgt : timeout < tc - fd.last_ok p
          · simp [fd_next, h0, hgt] at ha
          · simp [fd_next, h0, hgt] at ha

/-- Claim C4 amended: no direct `Alive` → `Dead` transition ever occurs
for a peer, starting from the initial detector state, provided
consecutive recorded outcomes for that peer are at most
`heartbeat_timeout` apart (the cadence the heartbeat loop provides when
`heartbeat_interval ≤ heartbeat_timeout`); without that gap bound the
property fails (see the counterexample). -/
theorem fd_no_direct_alive_dead (timeout : Int) (p : String) (calls : List (Bool × Int))
    (h : gapsOK timeout calls = true) :
    (FDState.Alive, FDState.Dead) ∉ fdTrace timeout initFD p calls := by
  cases calls with
  | nil => simp [fdTrace]
  | cons c rest =>
    have h' : gapsFrom timeout c.2 rest = true := h
    refine fdTrace_no_alive_dead timeout p (c :: rest) initFD (c.2 - timeout)
      (fun _ => Or.inl rfl) ?_
    simp only [gapsFrom, Bool.and_eq_true, decide_eq_true_eq]
    exact ⟨by omega, h'⟩

/-- Witness for the amended C4: success at 1000, failures at 1400 and
1900 (each ≤ 500 after the previous outcome) — the peer passes through
`Suspected` and never jumps `Alive` → `Dead`. -/
theorem fd_no_direct_alive_dead_witness :
    (FDState.Alive, FDState.Dead) ∉
      fdTrace 500 initFD "f1" [(true, 1000), (false, 1400), (false, 1900)] :=
  fd_no_direct_alive_dead 500 "f1" [(true, 1000), (false, 1400), (false, 1900)] (by decide)

/-- Claim C9: `leader_is_dead(now)` returns `false` when the synthetic
`"leader"` peer has no recorded success (`last_ok_ms_` reads 0), and
otherwise returns `true` iff `now - last_success_time > heartbeat_timeout`;
the embedding is a pure function, mirroring the C++ body, which only
reads `last_ok_ms_` under the lock, writes nothing and logs nothing. -/
theorem leader_is_dead_spec (timeout : Int) (fd : FD) (now L : Int)
    (hL : fd.last_ok "leader" = L) :
    (L = 0 → leader_is_dead timeout fd now = false)
    ∧ (L ≠ 0 → (leader_is_dead timeout fd now = true ↔ now - L > timeout)) := by
  constructor
  · intro h
    simp [leader_is_dead, hL, h]
  · intro h
    simp [leader_is_dead, hL, h]

/-- Concrete detector state with a success for the synthetic `"leader"`
peer recorded at time 1000. -/
def exLeaderFD : FD := ⟨fun q => if q = "leader" then 1000 else 0, fun _ => FDState.Suspected⟩

/-- Witness for C9: leader last succeeded at 1000, queried at 2000 with
timeout 500. -/
theorem leader_is_dead_spec_witness :
    leader_is_dead 500 exLeaderFD 2000 = true ↔ (2000 : Int) - 1000 > 500 :=
  (leader_is_dead_spec 500 exLeaderFD 2000 1000 (by simp [exLeaderFD])).2 (by decide)

/-- Field lookup in a parsed JSON object, modelled as an association
list of string fields; `none` plays `!body.contains(f)`. -/
def jget (o : List (String × String)) (f : String) : Option String :=
  (o.find? (fun q => q.1 == f)).map (fun q => q.2)

/-- `Store::put` (store.cpp): `kv_[k] = v`, on the map modelled as a
total function into `Option`. -/
def store_put (s : String → Option String) (k v : String) : String → Option String :=
  fun q => if q = k then some v else s q

/-- `Store::del` (store.cpp): `kv_.erase(k)`. -/
def store_del (s : String → Option String) (k : String) : String → Option String :=
  fun q => if q = k then none else s q

/-- `Store::get` (store.cpp): lookup, `none` = not found. -/
def store_get (s : String → Option String) (k : String) : Option String := s k

/-- The node state a request handler can touch: the `Store`, the failure
detector's maps, and the `op_seq_` request counter. -/
structure NodeSt where
  store : String → Option String
  fd : FD
  op_seq : Int

/-- The JSON response bodies the handlers construct. -/
inductive RespBody
  | bad_json
  | not_leader
  | put_accepted (rid : String)
  | get_missing (rid : String)
  | get_found (rid : String) (value : String)
  | replicate_ack
deriving DecidableEq, Repr

/-- A handler's observable result: the node state afterwards, the HTTP
status and body, the log events appended, and the argument tuple
`(rid, op, key, value)` of the `replicate_async` call if one was made. -/
structure HandlerOut where
  st : NodeSt
  status : Nat
  body : RespBody
  events : List Event
  fanout : Option (String × String × String × String)

/-- The `/put` guard: `body.is_discarded() || !body.contains("key") ||
!body.contains("value")`. -/
def put_req_bad (req : Option (List (String × String))) : Bool :=
  match req with
  | none => true
  | some b => !(jget b "key").isSome || !(jget b "value").isSome

/-- The `/get` guard: `body.is_discarded() || !body.contains("key")`. -/
def get_req_bad (req : Option (List (String × String))) : Bool :=
  match req with
  | none => true
  | some b => !(jget b "key").isSome

/-- The `/internal/replicate` guard: discarded or missing `op`, `key` or
`rid`. -/
def rep_req_bad (req : Option (List (String × String))) : Bool :=
  match req with
  | none => true
  | some b => !(jget b "op").isSome || !(jget b "key").isSome || !(jget b "rid").isSome

/-- Embedding of the `/put` handler (node.cpp lines 144-172): bump
`op_seq_`, reject malformed bodies with 400, reject writes on a
non-leader with 409 and a `"not_leader"` body, otherwise apply to the
local store, log `put_ok`, trigger `replicate_async(rid, "PUT", key,
val)` and answer 200. -/
def putHandler (is_leader : Bool) (st : NodeSt) (rid : String)
    (req : Option (List (String × String))) : HandlerOut :=
  let st1 : NodeSt := { st with op_seq := st.op_seq + 1 }
  if put_req_bad req then
    ⟨st1, 400, RespBody.bad_json, [Event.put_badreq rid], none⟩
  else
    let body := req.getD []
    let key := (jget body "key").getD ""
    let val := (jget body "value").getD ""
    if is_leader then
      ⟨{ st1 with store := store_put st1.store key val }, 200, RespBody.put_accepted rid,
        [Event.put_okev rid key val.length], some (rid, "PUT", key, val)⟩
    else
      ⟨st1, 409, RespBody.not_leader, [Event.put_reject_not_leader rid key], none⟩

/-- Embedding of the `/get` handler (node.cpp lines 174-199): bump
`op_seq_`, reject malformed bodies with 400, else read the store and
answer 404/`found:false` or 200 with the value. -/
def getHandler (st : NodeSt) (rid : String)
    (req : Option (List (String × String))) : HandlerOut :=
  let st1 : NodeSt := { st with op_seq := st.op_seq + 1 }
  if get_req_bad req then
    ⟨st1, 400, RespBody.bad_json, [Event.get_badreq rid], none⟩
  else
    let body := req.getD []
    let key := (jget body "key").getD ""
    match store_get st1.store key with
    | none => ⟨st1, 404, RespBody.get_missing rid, [Event.get_notfound rid key], none⟩
    | some v => ⟨st1, 200, RespBody.get_found rid v, [Event.get_okev rid key v.length], none⟩

/-- The store mutation the `/internal/replicate` handler performs:
`if (op == "PUT") store_.put(key, value); else if (op == "DEL")
store_.del(key);` — any other op leaves the store alone. -/
def applyRep (op key value : String) (s : String → Option String) : String → Option String :=
  if op = "PUT" then store_put s key value
  else if op = "DEL" then store_del s key
  else s

/-- Embedding of the `/internal/replicate` handler (node.cpp lines
206-225): reject malformed bodies with 400 (no log), otherwise apply the
operation (`value` defaulting to `""`), log `replicate_apply`, and always
acknowledge with 200. It does not touch `op_seq_` or the detector. -/
def repHandler (st : NodeSt) (req : Option (List (String × String))) : HandlerOut :=
  if rep_req_bad req then
    ⟨st, 400, RespBody.bad_json, [], none⟩
  else
    let body := req.getD []
    let op := (jget body "op").getD ""
    let key := (jget body "key").getD ""
    let rid := (jget body "rid").getD ""
    let value := (jget body "value").getD ""
    ⟨{ st with store := applyRep op key value st.store }, 200, RespBody.replicate_ack,
      [Event.replicate_apply rid key op], none⟩

/-- One replication push's tail (node.cpp lines 96-101): record the
outcome in the failure detector, then log `replicate_result`; the local
store is untouched. -/
def replicate_result_step (timeout : Int) (rid key : String) (st : NodeSt) (peer : String)
    (ok : Bool) (t : Int) : NodeSt × List Event :=
  ({ st with fd := (fd_update_peer timeout st.fd peer ok t).1 },
    (fd_update_peer timeout st.fd peer ok t).2.toList ++ [Event.replicate_result rid key peer ok])

/-- Fold a list of replication outcomes `(peer, ok, t)` into the node
state. -/
def applyOutcomes (timeout : Int) (rid key : String) (st : NodeSt)
    (outs : List (String × Bool × Int)) : NodeSt :=
  outs.foldl (fun acc o => (replicate_result_step timeout rid key acc o.1 o.2.1 o.2.2).1) st

/-- Empty store and fresh node state, used by witnesses. -/
def store0 : String → Option String := fun _ => none

/-- Fresh node state: empty store, initial detector, `op_seq_ = 0`. -/
def st0 : NodeSt := ⟨store0, initFD, 0⟩

/-- Claim C5: a well-formed PUT on a non-leader is answered 409 with the
`"not_leader"` body, logged as `put_reject_not_leader`, the store and the
detector are untouched, and `replicate_async` is never invoked. -/
theorem put_nonleader_rejected (st : NodeSt) (rid key val : String)
    (body : List (String × String))
    (hk : jget body "key" = some key) (hv : jget body "value" = some val) :
    (putHandler false st rid (some body)).status = 409
    ∧ (putHandler false st rid (some body)).body = RespBody.not_leader
    ∧ (putHandler false st rid (some body)).st.store = st.store
    ∧ (putHandler false st rid (some body)).st.fd = st.fd
    ∧ (putHandler false st rid (some body)).fanout = none
    ∧ (putHandler false st rid (some body)).events = [Event.put_reject_not_leader rid key] := by
  have hbad : put_req_bad (some body) = false := by
    simp [put_req_bad, hk, hv]
  simp [putHandler, hbad, hk]

/-- Witness for C5: a concrete well-formed PUT body on a fresh follower. -/
theorem put_nonleader_rejected_witness :
    (putHandler false st0 "r1" (some [("key", "k"), ("value", "v")])).status = 409
    ∧ (putHandler false st0 "r1" (some [("key", "k"), ("value", "v")])).body = RespBody.not_leader
    ∧ (putHandler false st0 "r1" (some [("key", "k"), ("value", "v")])).st.store = st0.store
    ∧ (putHandler false st0 "r1" (some [("key", "k"), ("value", "v")])).st.fd = st0.fd
    ∧ (putHandler false st0 "r1" (some [("key", "k"), ("value", "v")])).fanout = none
    ∧ (putHandler false st0 "r1" (some [("key", "k"), ("value", "v")])).events =
        [Event.put_reject_not_leader "r1" "k"] :=
  put_nonleader_rejected st0 "r1" "k" "v" [("key", "k"), ("value", "v")]
    (by simp [jget]) (by simp [jget])

/-- Counterexample to C6 as stated: handling a malformed PUT body does
mutate node state — `op_seq_++` runs before the body is validated, so on
a fresh node the state after a rejected malformed request differs from
the state before it. -/
theorem put_badreq_mutates_counterexample :
    (putHandler true st0 "r0" none).st ≠ st0 := by
  intro h
  have h2 := congrArg NodeSt.op_seq h
  simp [putHandler, put_req_bad, st0] at h2

/-- Claim C6 amended: a malformed PUT or GET request is rejected with a
400 `"bad_json"` body and logged, and neither the store nor the failure
detector is mutated; the only state change is the `op_seq_` request
counter, which increments for every request before validation. -/
theorem badreq_rejected_no_store_mutation (il : Bool) (st : NodeSt) (rid : String)
    (req reqg : Option (List (String × String))) :
    (put_req_bad req = true →
      (putHandler il st rid req).status = 400
      ∧ (putHandler il st rid req).body = RespBody.bad_json
      ∧ (putHandler il st rid req).events = [Event.put_badreq rid]
      ∧ (putHandler il st rid req).st.store = st.store
      ∧ (putHandler il st rid req).st.fd = st.fd
      ∧ (putHandler il st rid req).st.op_seq = st.op_seq + 1
      ∧ (putHandler il st rid req).fanout = none)
    ∧ (get_req_bad reqg = true →
      (getHandler st rid reqg).status = 400
      ∧ (getHandler st rid reqg).body = RespBody.bad_json
      ∧ (getHandler st rid reqg).events = [Event.get_badreq rid]
      ∧ (getHandler st rid reqg).st.store = st.store
      ∧ (getHandler st rid reqg).st.fd = st.fd
      ∧ (getHandler st rid reqg).st.op_seq = st.op_seq + 1) := by
  constructor
  · intro h
    simp [putHandler, h]
  · intro h
    simp [getHandler, h]

/-- Witness for the amended C6: unparsable bodies on both endpoints of a
fresh leader. -/
theorem badreq_rejected_no_store_mutation_witness :
    ((putHandler true st0 "r0" none).status = 400
      ∧ (putHandler true st0 "r0" none).body = RespBody.bad_json
      ∧ (putHandler true st0 "r0" none).events = [Event.put_badreq "r0"]
      ∧ (putHandler true st0 "r0" none).st.store = st0.store
      ∧ (putHandler true st0 "r0" none).st.fd = st0.fd
      ∧ (putHandler true st0 "r0" none).st.op_seq = st0.op_seq + 1
      ∧ (putHandler true st0 "r0" none).fanout = none)
    ∧ ((getHandler st0 "r0" none).status = 400
      ∧ (getHandler st0 "r0" none).body = RespBody.bad_json
      ∧ (getHandler st0 "r0" none).events = [Event.get_badreq "r0"]
      ∧ (getHandler st0 "r0" none).st.store = st0.store
      ∧ (getHandler st0 "r0" none).st.fd = st0.fd
      ∧ (getHandler st0 "r0" none).st.op_seq = st0.op_seq + 1) :=
  ⟨(badreq_rejected_no_store_mutation true st0 "r0" none none).1 rfl,
    (badreq_rejected_no_store_mutation true st0 "r0" none none).2 rfl⟩

theorem applyOutcomes_store (timeout : Int) (rid key : String)
    (outs : List (String × Bool × Int)) :
    ∀ st : NodeSt, (applyOutcomes timeout rid key st outs).store = st.store := by
  induction outs with
  | nil => intro st; rfl
  | cons o rest ih =>
    intro st
    have hfold : applyOutcomes timeout rid key st (o :: rest) =
        applyOutcomes timeout rid key
          (replicate_result_step timeout rid key st o.1 o.2.1 o.2.2).1 rest := by
      simp [applyOutcomes]
    rw [hfold, ih]
    rfl

/-- Claim C7: a PUT accepted on the leader (status 200) is immediately
visible to a GET for the same key on the leader, whatever replication
outcomes (successes or failures, at any times, for any peers) get
recorded in between — outcomes only feed the failure detector, never the
local store. -/
theorem put_then_get_found (timeout : Int) (st : NodeSt) (rid rid2 key val : String)
    (body body2 : List (String × String)) (outs : List (String × Bool × Int))
    (hk : jget body "key" = some key) (hv : jget body "value" = some val)
    (hk2 : jget body2 "key" = some key) :
    (putHandler true st rid (some body)).status = 200
    ∧ (getHandler (applyOutcomes timeout rid key (putHandler true st rid (some body)).st outs)
        rid2 (some body2)).status = 200
    ∧ (getHandler (applyOutcomes timeout rid key (putHandler true st rid (some body)).st outs)
        rid2 (some body2)).body = RespBody.get_found rid2 val := by
  have hbad : put_req_bad (some body) = false := by
    simp [put_req_bad, hk, hv]
  have hbad2 : get_req_bad (some body2) = false := by
    simp [get_req_bad, hk2]
  have hputst : (putHandler true st rid (some body)).st.store = store_put st.store key val := by
    simp [putHandler, hbad, hk, hv]
  have hstore : (applyOutcomes timeout rid key (putHandler true st rid (some body)).st outs).store
      = store_put st.store key val := by
    rw [applyOutcomes_store, hputst]
  refine ⟨by simp [putHandler, hbad], ?_, ?_⟩ <;>
    simp [getHandler, hbad2, hk2, store_get, hstore, store_put]

/-- Witness for C7: PUT k=v on a fresh leader, one successful and one
failed replication outcome, then GET k. -/
theorem put_then_get_found_witness :
    (putHandler true st0 "r1" (some [("key", "k"), ("value", "v")])).status = 200
    ∧ (getHandler (applyOutcomes 500 "r1" "k"
          (putHandler true st0 "r1" (some [("key", "k"), ("value", "v")])).st
          [("f1", true, 10), ("f2", false, 20)])
        "r2" (some [("key", "k")])).status = 200
    ∧ (getHandler (applyOutcomes 500 "r1" "k"
          (putHandler true st0 "r1" (some [("key", "k"), ("value", "v")])).st
          [("f1", true, 10), ("f2", false, 20)])
        "r2" (some [("key", "k")])).body = RespBody.get_found "r2" "v" :=
  put_then_get_found 500 st0 "r1" "r2" "k" "v" [("key", "k"), ("value", "v")] [("key", "k")]
    [("f1", true, 10), ("f2", false, 20)]
    (by simp [jget]) (by simp [jget]) (by simp [jget])

theorem applyRep_applyRep (op key value : String) (s : String → Option String) :
    applyRep op key value (applyRep op key value s) = applyRep op key value s := by
  unfold applyRep
  by_cases hp : op = "PUT"
  · simp only [hp, if_pos]
    funext q
    by_cases hq : q = key <;> simp [store_put, hq]
  · by_cases hd : op = "DEL"
    · simp only [hp, hd, if_neg, if_pos]
      funext q
      by_cases hq : q = key <;> simp [store_del, hq, hp]
    · simp [hp, hd]

theorem repHandler_st_idem (st : NodeSt) (req : Option (List (String × String))) :
    (repHandler (repHandler st req).st req).st = (repHandler st req).st := by
  by_cases h : rep_req_bad req
  · simp [repHandler, h]
  · simp [repHandler, h, applyRep_applyRep]

/-- Claim C8: replaying the same replicate-apply request any number of
times (at least once) through the `/internal/replicate` handler leaves
the node in exactly the state produced by applying it once — last-write-
wins per key makes replicated PUT and DEL idempotent. -/
theorem replicate_apply_idempotent (st : NodeSt) (req : Option (List (String × String)))
    (n : Nat) (h : 1 ≤ n) :
    (fun s => (repHandler s req).st)^[n] st = (repHandler st req).st := by
  induction n with
  | zero => omega
  | succ m ih =>
    cases m with
    | zero => simp
    | succ l =>
      rw [Function.iterate_succ_apply', ih (by omega)]
      exact repHandler_st_idem st req

/-- Witness for C8: the same replicated PUT applied three times to a
fresh follower equals applying it once. -/
theorem replicate_apply_idempotent_witness :
    1 ≤ 3
    ∧ (fun s => (repHandler s (some [("rid", "r"), ("op", "PUT"), ("key", "k"), ("value", "v")])).st)^[3] st0
      = (repHandler st0 (some [("rid", "r"), ("op", "PUT"), ("key", "k"), ("value", "v")])).st :=
  ⟨by decide,
    replicate_apply_idempotent st0 (some [("rid", "r"), ("op", "PUT"), ("key", "k"), ("value", "v")])
      3 (by decide)⟩

/-- Claim C10: a well-formed replicate-apply request whose `op` is
neither `"PUT"` nor `"DEL"` is still acknowledged with 200 and logged as
`replicate_apply`, while the node state — store included — is left
completely unchanged. -/
theorem replicate_unknown_op_acked (st : NodeSt) (body : List (String × String))
    (op key rid : String)
    (hop : jget body "op" = some op) (hk : jget body "key" = some key)
    (hr : jget body "rid" = some rid) (hnp : op ≠ "PUT") (hnd : op ≠ "DEL") :
    (repHandler st (some body)).status = 200
    ∧ (repHandler st (some body)).st = st
    ∧ (repHandler st (some body)).events = [Event.replicate_apply rid key op] := by
  have hbad : rep_req_bad (some body) = false := by
    simp [rep_req_bad, hop, hk, hr]
  simp [repHandler, hbad, hop, hk, hr, applyRep, hnp, hnd]

/-- Witness for C10: a replicate-apply with `op = "NOP"` on a fresh
node. -/
theorem replicate_unknown_op_acked_witness :
    (repHandler st0 (some [("rid", "r"), ("op", "NOP"), ("key", "k")])).status = 200
    ∧ (repHandler st0 (some [("rid", "r"), ("op", "NOP"), ("key", "k")])).st = st0
    ∧ (repHandler st0 (some [("rid", "r"), ("op", "NOP"), ("key", "k")])).events =
        [Event.replicate_apply "r" "k" "NOP"] :=
  replicate_unknown_op_acked st0 [("rid", "r"), ("op", "NOP"), ("key", "k")] "NOP" "k" "r"
    (by simp [jget]) (by simp [jget]) (by simp [jget]) (by decide) (by decide)

end KV
